import Mathlib

/-!
Verification of the `bio_rag_demo` ETL pipeline (src/download_gtex.py and
src/etl_gtex.py) against its natural-language specification.

The two scripts are embedded shallowly:

* `download_gtex.py`: the `FILES` table and the `fetch` helper become pure
  Lean data and a pure function over an explicit filesystem model (an
  association list from filename to byte content) and an abstract network
  (a function from URL to byte content).

* `etl_gtex.py`: the metadata load, the liver-sample selection, the
  two-pass GCT read, the `usecols`-restricted parse and the column rename
  become pure functions over explicit table models.  `pandas.read_csv`
  with `usecols` is modelled per its documented semantics: the element
  order of `usecols` is ignored, the materialized columns appear in the
  order they occur in the file header, and a `usecols` name absent from
  the header is an error (modelled as `Option.none`).

Machine text is modelled as `String` cells; byte content as `List Nat`.
-/

namespace BioRag

/-! ## Data model for `etl_gtex.py` -/

/-- One row of the sample-attributes metadata table: the `SAMPID` and
`SMTSD` fields that `etl_gtex.py` reads. -/
structure MetaRow where
  sampid : String
  smtsd : String
deriving DecidableEq, Repr

/-- A GCT-style matrix file: two leading metadata lines, a tab-delimited
header line (`col_names` in the script), and one cell row per gene, each
row aligned positionally with the header. -/
structure Gct where
  headerLine1 : String
  headerLine2 : String
  colNames : List String
  rows : List (List String)
deriving DecidableEq, Repr

/-- An in-memory table (the pandas DataFrame `df` after load and rename):
column names plus cell rows aligned with them. -/
structure Table where
  cols : List String
  rows : List (List String)
deriving DecidableEq, Repr

/-- `liver_ids = meta.loc[meta.SMTSD == "Liver", "SAMPID"]`
(etl_gtex.py line 38): the `SAMPID` values of the metadata rows whose
`SMTSD` equals `"Liver"`, in metadata row order. -/
def liver_ids (meta : List MetaRow) : List String :=
  (meta.filter (fun r => r.smtsd == "Liver")).map (fun r => r.sampid)

/-- `gct_samples = set(col_names[2:])` (etl_gtex.py line 46): the header
tokens after the two descriptive labels; membership in the Python `set`
is membership in this list. -/
def gct_samples (g : Gct) : List String :=
  g.colNames.drop 2

/-- `keep_ids = [sid for sid in liver_ids if sid in gct_samples]`
(etl_gtex.py line 47). -/
def keep_ids (meta : List MetaRow) (g : Gct) : List String :=
  (liver_ids meta).filter (fun sid => (gct_samples g).contains sid)

/-- The `usecols` argument of the second `pd.read_csv`
(etl_gtex.py line 55): `["Name", "Description", *keep_ids]`. -/
def usecolsFor (keep : List String) : List String :=
  "Name" :: "Description" :: keep

/-- The columns a `usecols`-restricted parse materializes: per the pandas
documentation the element order of `usecols` is ignored, so the selected
columns appear in file-header order. -/
def selectCols (usecols : List String) (colNames : List String) : List String :=
  colNames.filter (fun c => usecols.contains c)

/-- Projection of one positionally aligned cell row onto the selected
columns, preserving file order. -/
def projectRow (usecols : List String) (colNames cells : List String) : List String :=
  ((colNames.zip cells).filter (fun p => usecols.contains p.1)).map (fun p => p.2)

/-- The second pass over the matrix (etl_gtex.py lines 51-56):
`pd.read_csv(smart_open(gct_path), sep="\t", skiprows=2, usecols=[...])`.
`skiprows=2` drops the two metadata lines, so the parse sees the same
header `colNames`; pandas raises `ValueError` when a `usecols` name is
missing from the header, modelled as `none`. -/
def readFiltered (g : Gct) (keep : List String) : Option Table :=
  if (usecolsFor keep).all (fun c => g.colNames.contains c) then
    some { cols := selectCols (usecolsFor keep) g.colNames,
           rows := g.rows.map (fun r => projectRow (usecolsFor keep) g.colNames r) }
  else
    none

/-- The rename map of etl_gtex.py line 58:
`df.rename(columns={"Name": "gene_id", "Description": "gene_symbol"})`. -/
def renameCol (c : String) : String :=
  if c == "Name" then "gene_id"
  else if c == "Description" then "gene_symbol"
  else c

/-- Apply the rename to the column labels of a table. -/
def renameTable (t : Table) : Table :=
  { t with cols := t.cols.map renameCol }

/-- The table-producing pipeline of the Transformer (etl_gtex.py lines 37-58):
derive `liver_ids` from the metadata, discover the sample universe,
compute `keep_ids`, load the `usecols`-restricted matrix, and rename the
two descriptive columns.  `none` models an uncaught parsing failure. -/
def transformer (meta : List MetaRow) (g : Gct) : Option Table :=
  (readFiltered g (keep_ids meta g)).map renameTable

/-! ## C3: the effective filter set -/

/-- C3: for every candidate filter list (the `SAMPID` values of metadata
rows with `SMTSD = "Liver"`, in row order) and matrix sample universe,
`keep_ids` is the subsequence of the candidate list consisting of exactly
the identifiers present in the universe: it is a sublist (hence preserves
the candidate order), its members are exactly the candidates that occur
in the universe, and its length is at most the length of the candidate list. -/
theorem keep_ids_spec (meta : List MetaRow) (g : Gct) :
    (keep_ids meta g).Sublist (liver_ids meta) ∧
    (∀ sid : String, sid ∈ keep_ids meta g ↔
      sid ∈ liver_ids meta ∧ sid ∈ gct_samples g) ∧
    (keep_ids meta g).length ≤ (liver_ids meta).length := by
  refine ⟨List.filter_sublist _, fun sid => ?_, (List.filter_sublist _).length_le⟩
  simp [keep_ids, List.mem_filter, List.elem_iff]

/-! ## Helper lemmas about the second pass -/

/-- Well-formed GCT header: the two leading descriptive labels are exactly
`Name` and `Description`, as in the real GCT files this pipeline consumes. -/
abbrev HeaderOk (g : Gct) : Prop :=
  g.colNames.take 2 = ["Name", "Description"]

theorem headerOk_eq (g : Gct) (h : HeaderOk g) :
    g.colNames = "Name" :: "Description" :: gct_samples g := by
  have htd := (List.take_append_drop 2 g.colNames).symm
  rw [h] at htd
  simpa [gct_samples] using htd

theorem mem_colNames_of_mem_keep (meta : List MetaRow) (g : Gct) :
    ∀ sid ∈ keep_ids meta g, sid ∈ g.colNames := by
  intro sid hsid
  have h2 : sid ∈ gct_samples g := by
    have := (keep_ids_spec meta g).2.1 sid
    exact (this.mp hsid).2
  exact (List.drop_sublist 2 g.colNames).mem h2

theorem usecols_all_ok (meta : List MetaRow) (g : Gct) (h : HeaderOk g) :
    (usecolsFor (keep_ids meta g)).all (fun c => g.colNames.contains c) = true := by
  rw [List.all_eq_true]
  intro c hc
  have hmem : c ∈ g.colNames := by
    simp only [usecolsFor, List.mem_cons] at hc
    rcases hc with rfl | rfl | h1
    · rw [headerOk_eq g h]; simp
    · rw [headerOk_eq g h]; simp
    · exact mem_colNames_of_mem_keep meta g c h1
  exact List.elem_iff.mpr hmem

theorem readFiltered_eq_some (g : Gct) (keep : List String)
    (hall : (usecolsFor keep).all (fun c => g.colNames.contains c) = true) :
    readFiltered g keep =
      some { cols := selectCols (usecolsFor keep) g.colNames,
             rows := g.rows.map (fun r => projectRow (usecolsFor keep) g.colNames r) } := by
  simp only [readFiltered, hall]
  rfl

theorem transformer_eq (meta : List MetaRow) (g : Gct) (h : HeaderOk g) :
    transformer meta g =
      some (renameTable
        { cols := selectCols (usecolsFor (keep_ids meta g)) g.colNames,
          rows := g.rows.map
            (fun r => projectRow (usecolsFor (keep_ids meta g)) g.colNames r) }) := by
  rw [transformer, readFiltered_eq_some g _ (usecols_all_ok meta g h)]
  rfl

theorem selectCols_cons (keep rest : List String) :
    selectCols (usecolsFor keep) ("Name" :: "Description" :: rest) =
      "Name" :: "Description" ::
        rest.filter (fun c => (usecolsFor keep).contains c) := by
  simp [selectCols, usecolsFor]

theorem filter_usecols_of_not_mem (keep rest : List String)
    (hn : "Name" ∉ rest) (hd : "Description" ∉ rest) :
    rest.filter (fun c => (usecolsFor keep).contains c) =
      rest.filter (fun c => keep.contains c) := by
  apply List.filter_congr
  intro c hc
  have hc1 : ¬ (c == "Name") = true := by
    intro hb; exact hn (by simpa using (eq_of_beq hb) ▸ hc)
  have hc2 : ¬ (c == "Description") = true := by
    intro hb; exact hd (by simpa using (eq_of_beq hb) ▸ hc)
  simp only [usecolsFor, List.contains_cons]
  rw [Bool.eq_false_iff.mpr hc1, Bool.eq_false_iff.mpr hc2]
  simp

theorem projectRow_cons_cons (keep rest : List String) (a b : String)
    (cells : List String) :
    projectRow (usecolsFor keep) ("Name" :: "Description" :: rest) (a :: b :: cells) =
      a :: b :: projectRow (usecolsFor keep) rest cells := by
  simp [projectRow, usecolsFor]

theorem map_renameCol_of_not_mem (l : List String)
    (hn : "Name" ∉ l) (hd : "Description" ∉ l) : l.map renameCol = l := by
  induction l with
  | nil => rfl
  | cons a t ih =>
    simp only [List.mem_cons, not_or] at hn hd
    simp [renameCol, beq_iff_eq, Ne.symm hn.1, Ne.symm hd.1, ih hn.2 hd.2]

theorem nodup_parts (g : Gct) (h1 : HeaderOk g) (h2 : g.colNames.Nodup) :
    "Name" ∉ gct_samples g ∧ "Description" ∉ gct_samples g ∧
      (gct_samples g).Nodup := by
  have h2' := h2
  rw [headerOk_eq g h1, List.nodup_cons, List.nodup_cons] at h2'
  exact ⟨fun hx => h2'.1 (List.mem_cons_of_mem _ hx), h2'.2.1, h2'.2.2⟩

/-! ## Concrete inputs used by the witnesses (the scenario of spec section 8) -/

/-- Metadata with 5 rows where `SMTSD = "Liver"` holds for samples
`A`, `B`, `C` (spec section 8 scenario). -/
def scenarioMeta : List MetaRow :=
  [⟨"A", "Liver"⟩, ⟨"X1", "Lung"⟩, ⟨"B", "Liver"⟩, ⟨"X2", "Brain"⟩, ⟨"C", "Liver"⟩]

/-- A matrix whose header contains samples `B`, `C`, `D`
(spec section 8 scenario). -/
def scenarioGct : Gct :=
  { headerLine1 := "#1.2", headerLine2 := "1 3",
    colNames := ["Name", "Description", "B", "C", "D"],
    rows := [["g1", "s1", "1", "2", "3"]] }

/-! ## C2: output column set and order -/

/-- C2 counterexample inputs: candidate Liver order is `A` then `B`, but the
matrix header lists `B` before `A`. -/
def c2Meta : List MetaRow := [⟨"A", "Liver"⟩, ⟨"B", "Liver"⟩]

def c2Gct : Gct :=
  { headerLine1 := "#1.2", headerLine2 := "1 2",
    colNames := ["Name", "Description", "B", "A"],
    rows := [["g1", "s1", "1", "2"]] }

/-- C2 is false as stated: with candidate order `[A, B]` and matrix-header
order `[B, A]`, the effective filter set is `[A, B]` (candidate order),
but pandas ignores `usecols` element order, so the written columns are
`[gene_id, gene_symbol, B, A]`, not `[gene_id, gene_symbol, A, B]`. -/
theorem c2_usecols_order_counterexample :
    keep_ids c2Meta c2Gct = ["A", "B"] ∧
    (transformer c2Meta c2Gct).map Table.cols =
      some ["gene_id", "gene_symbol", "B", "A"] ∧
    ("gene_id" :: "gene_symbol" :: keep_ids c2Meta c2Gct) ≠
      ["gene_id", "gene_symbol", "B", "A"] := by decide

/-- C2 (amended): the output columns are `gene_id`, `gene_symbol` followed
by exactly the effective filter-set identifiers, with no duplicates, but
in matrix-header order rather than candidate-set order (the two orders
coincide in the section-8 scenario).  Hypotheses: well-formed header,
duplicate-free header, and no sample is itself named `gene_id` or
`gene_symbol`. -/
theorem output_cols_spec (meta : List MetaRow) (g : Gct)
    (h1 : HeaderOk g) (h2 : g.colNames.Nodup)
    (h3 : "gene_id" ∉ gct_samples g) (h4 : "gene_symbol" ∉ gct_samples g) :
    ∃ t : Table, transformer meta g = some t ∧
      t.cols = "gene_id" :: "gene_symbol" ::
        (gct_samples g).filter (fun c => (keep_ids meta g).contains c) ∧
      (∀ c : String,
        c ∈ t.cols.drop 2 ↔ c ∈ gct_samples g ∧ c ∈ keep_ids meta g) ∧
      t.cols.Nodup := by
  obtain ⟨hn, hd, hrest⟩ := nodup_parts g h1 h2
  have hfr : ∀ c ∈ (gct_samples g).filter
      (fun c => (keep_ids meta g).contains c), c ∈ gct_samples g :=
    fun c hc => List.mem_of_mem_filter hc
  have hcols : (renameTable
      { cols := selectCols (usecolsFor (keep_ids meta g)) g.colNames,
        rows := g.rows.map
          (fun r => projectRow (usecolsFor (keep_ids meta g)) g.colNames r) } :
        Table).cols =
      "gene_id" :: "gene_symbol" ::
        (gct_samples g).filter (fun c => (keep_ids meta g).contains c) := by
    show (selectCols (usecolsFor (keep_ids meta g)) g.colNames).map renameCol = _
    rw [headerOk_eq g h1, selectCols_cons,
      filter_usecols_of_not_mem _ _ hn hd, List.map_cons, List.map_cons,
      map_renameCol_of_not_mem _ (fun hx => hn (hfr _ hx))
        (fun hx => hd (hfr _ hx))]
    rfl
  refine ⟨_, transformer_eq meta g h1, hcols, ?_, ?_⟩
  · intro c
    rw [hcols]
    simp [List.mem_filter, List.elem_iff, and_comm]
  · rw [hcols]
    refine List.nodup_cons.mpr ⟨?_, List.nodup_cons.mpr
      ⟨?_, List.Nodup.filter _ hrest⟩⟩
    · simp only [List.mem_cons, not_or]
      exact ⟨by decide, fun hx => h3 (hfr _ hx)⟩
    · exact fun hx => h4 (hfr _ hx)

/-- C2 witness: the section-8 scenario evaluated through the amended
theorem. -/
theorem output_cols_spec_witness :
    HeaderOk scenarioGct ∧
    ∃ t : Table, transformer scenarioMeta scenarioGct = some t ∧
      t.cols = "gene_id" :: "gene_symbol" ::
        (gct_samples scenarioGct).filter
          (fun c => (keep_ids scenarioMeta scenarioGct).contains c) ∧
      (∀ c : String,
        c ∈ t.cols.drop 2 ↔
          c ∈ gct_samples scenarioGct ∧ c ∈ keep_ids scenarioMeta scenarioGct) ∧
      t.cols.Nodup :=
  ⟨by decide,
   output_cols_spec scenarioMeta scenarioGct (by decide) (by decide)
     (by decide) (by decide)⟩

/-! ## C4: row preservation -/

/-- C4: for every well-formed metadata/matrix pair, the output table has
the same number of rows as the matrix has gene rows, and the same row
keys (the two leading cells: gene id, gene symbol) in the same order:
the `usecols` filtering is column-wise only and never drops a gene row. -/
theorem transformer_row_preservation (meta : List MetaRow) (g : Gct)
    (h1 : HeaderOk g)
    (h2 : ∀ r ∈ g.rows, r.length = g.colNames.length) :
    ∃ t : Table, transformer meta g = some t ∧
      t.rows.length = g.rows.length ∧
      t.rows.map (fun r => r.take 2) = g.rows.map (fun r => r.take 2) := by
  refine ⟨_, transformer_eq meta g h1, by simp [renameTable], ?_⟩
  show ((g.rows.map _).map _ : List (List String)) = _
  rw [List.map_map]
  apply List.map_congr_left
  intro r hr
  have hlen := h2 r hr
  rw [headerOk_eq g h1] at hlen
  simp only [List.length_cons] at hlen
  cases r with
  | nil => simp at hlen
  | cons a r1 =>
    cases r1 with
    | nil => simp at hlen
    | cons b cells =>
      simp only [Function.comp_apply]
      rw [headerOk_eq g h1, projectRow_cons_cons]
      rfl

/-- C4 witness: the section-8 scenario evaluated through the theorem. -/
theorem transformer_row_preservation_witness :
    (∀ r ∈ scenarioGct.rows, r.length = scenarioGct.colNames.length) ∧
    ∃ t : Table, transformer scenarioMeta scenarioGct = some t ∧
      t.rows.length = scenarioGct.rows.length ∧
      t.rows.map (fun r => r.take 2) =
        scenarioGct.rows.map (fun r => r.take 2) :=
  ⟨by decide,
   transformer_row_preservation scenarioMeta scenarioGct (by decide) (by decide)⟩

/-! ## C7: an empty effective filter set is not an error -/

/-- C7: when the metadata has no Liver row, or its Liver samples have no
overlap with the matrix sample universe, the effective filter set is
empty, the Transformer still succeeds, and the output has columns
`[gene_id, gene_symbol]` only, with one row per input gene. -/
theorem empty_filter_ok (meta : List MetaRow) (g : Gct)
    (h0 : (∀ r ∈ meta, r.smtsd ≠ "Liver") ∨
      (∀ sid ∈ liver_ids meta, sid ∉ gct_samples g))
    (h1 : HeaderOk g) (h2 : g.colNames.Nodup) :
    keep_ids meta g = [] ∧
    ∃ t : Table, transformer meta g = some t ∧
      t.cols = ["gene_id", "gene_symbol"] ∧
      t.rows.length = g.rows.length := by
  obtain ⟨hn, hd, _⟩ := nodup_parts g h1 h2
  have hk : keep_ids meta g = [] := by
    rcases h0 with h0 | h0
    · have hf : meta.filter (fun r => r.smtsd == "Liver") = [] :=
        List.filter_eq_nil_iff.mpr (fun r hr => by simpa using h0 r hr)
      rw [keep_ids, liver_ids, hf]
      rfl
    · rw [keep_ids]
      exact List.filter_eq_nil_iff.mpr
        (fun sid hsid hc => h0 sid hsid (List.elem_iff.mp hc))
  refine ⟨hk, _, transformer_eq meta g h1, ?_, by simp [renameTable]⟩
  show (selectCols (usecolsFor (keep_ids meta g)) g.colNames).map renameCol = _
  rw [hk, headerOk_eq g h1, selectCols_cons, filter_usecols_of_not_mem _ _ hn hd]
  simp [renameCol]

/-- C7 witness: both routes to an empty filter set against the scenario
matrix — metadata with zero Liver rows, and metadata whose only Liver
sample `Z1` is absent from the matrix header. -/
theorem empty_filter_ok_witness :
    (keep_ids [MetaRow.mk "X1" "Lung", MetaRow.mk "X2" "Brain"] scenarioGct = [] ∧
      ∃ t : Table,
        transformer [MetaRow.mk "X1" "Lung", MetaRow.mk "X2" "Brain"] scenarioGct =
          some t ∧
        t.cols = ["gene_id", "gene_symbol"] ∧
        t.rows.length = scenarioGct.rows.length) ∧
    (keep_ids [MetaRow.mk "Z1" "Liver"] scenarioGct = [] ∧
      ∃ t : Table,
        transformer [MetaRow.mk "Z1" "Liver"] scenarioGct = some t ∧
        t.cols = ["gene_id", "gene_symbol"] ∧
        t.rows.length = scenarioGct.rows.length) :=
  ⟨empty_filter_ok [MetaRow.mk "X1" "Lung", MetaRow.mk "X2" "Brain"] scenarioGct
      (Or.inl (by decide)) (by decide) (by decide),
   empty_filter_ok [MetaRow.mk "Z1" "Liver"] scenarioGct
      (Or.inr (by decide)) (by decide) (by decide)⟩

/-! ## C8: schema normalization versus source header labels -/

/-- C8 counterexample inputs: a matrix whose two leading descriptive
labels are `id` and `sym` instead of `Name` and `Description`. -/
def c8Gct : Gct :=
  { headerLine1 := "#1.2", headerLine2 := "1 1",
    colNames := ["id", "sym", "S1"],
    rows := [["g1", "s1", "5"]] }

def c8Meta : List MetaRow := [⟨"S1", "Liver"⟩]

/-- C8 is false as stated: the second parse hard-codes
`usecols=["Name", "Description", ...]`, so when the header labels differ
the parse raises (modelled as `none`) and the Transformer does not
succeed. -/
theorem c8_header_labels_counterexample :
    transformer c8Meta c8Gct = none := by decide

/-- C8 (amended): for every matrix whose two leading descriptive labels
are exactly `Name` and `Description`, the Transformer succeeds and the
first two output columns are named `gene_id` and `gene_symbol`; success
is not label-independent, since a header lacking those hard-coded
`usecols` names (such as `id`/`sym` in the counterexample) makes the
load step fail. -/
theorem header_labels_spec (meta : List MetaRow) (g : Gct) (h1 : HeaderOk g) :
    ∃ t : Table, transformer meta g = some t ∧
      t.cols.take 2 = ["gene_id", "gene_symbol"] := by
  refine ⟨_, transformer_eq meta g h1, ?_⟩
  show ((selectCols (usecolsFor (keep_ids meta g)) g.colNames).map
    renameCol).take 2 = _
  rw [headerOk_eq g h1, selectCols_cons]
  rfl

/-- C8 witness: the scenario inputs evaluated through the amended
theorem. -/
theorem header_labels_spec_witness :
    HeaderOk scenarioGct ∧
    ∃ t : Table, transformer scenarioMeta scenarioGct = some t ∧
      t.cols.take 2 = ["gene_id", "gene_symbol"] :=
  ⟨by decide, header_labels_spec scenarioMeta scenarioGct (by decide)⟩

/-! ## C9: determinism -/

/-- C9: the table construction of the Transformer is a pure function of the
two parsed inputs (the shallow embedding is a Lean function, mirroring
that etl_gtex.py reads nothing else — no randomness, time, or
environment feeds the table), so two runs on equal inputs yield equal
tables. -/
theorem transformer_deterministic (meta1 meta2 : List MetaRow)
    (g1 g2 : Gct) (t1 t2 : Option Table)
    (hm : meta1 = meta2) (hg : g1 = g2)
    (h1 : transformer meta1 g1 = t1) (h2 : transformer meta2 g2 = t2) :
    t1 = t2 := by
  subst hm hg
  exact h1.symm.trans h2

/-- C9 witness: two evaluations of the Transformer on the scenario
inputs produce the same concrete table. -/
theorem transformer_deterministic_witness :
    (some { cols := ["gene_id", "gene_symbol", "B", "C"],
            rows := [["g1", "s1", "1", "2"]] } : Option Table) =
      some { cols := ["gene_id", "gene_symbol", "B", "C"],
             rows := [["g1", "s1", "1", "2"]] } :=
  transformer_deterministic scenarioMeta scenarioMeta scenarioGct scenarioGct
    _ _ rfl rfl (by decide) (by decide)

/-! ## C10: the missing-usecols failure branch of the second parse -/

/-- C10: both passes see the same header, so every identifier in
`keep_ids` is a column of the header the second parse reads; hence for a
well-formed GCT with labels `Name` and `Description` the missing-column
failure branch of `readFiltered` is unreachable. -/
theorem second_pass_total (meta : List MetaRow) (g : Gct) (h1 : HeaderOk g) :
    (∀ sid ∈ keep_ids meta g, sid ∈ g.colNames) ∧
    (readFiltered g (keep_ids meta g)).isSome = true := by
  refine ⟨mem_colNames_of_mem_keep meta g, ?_⟩
  rw [readFiltered_eq_some g _ (usecols_all_ok meta g h1)]
  rfl

/-- C10 witness: the second parse succeeds on the scenario inputs. -/
theorem second_pass_total_witness :
    (readFiltered scenarioGct (keep_ids scenarioMeta scenarioGct)).isSome = true :=
  (second_pass_total scenarioMeta scenarioGct (by decide)).2

/-! ## Data model for `download_gtex.py`

The filesystem is an association list from filename to byte content; the
network is a function from URL to byte content. -/

/-- File content as a byte list. -/
abbrev ByteContent := List Nat

/-- The `data_raw/` directory modelled as filename-to-content bindings. -/
abbrev FileSystem := List (String × ByteContent)

/-- `dest.exists()` (download_gtex.py line 37). -/
def fsExists (fs : FileSystem) (name : String) : Bool :=
  (fs.lookup name).isSome

/-- Result of one `fetch` call: the filesystem afterwards, whether
`urlretrieve` ran, whether the skip message was printed, and the
returned destination path. -/
structure FetchOut where
  fs : FileSystem
  transferred : Bool
  skipped : Bool
  dest : String
deriving DecidableEq, Repr

/-- `fetch(tag, fname, url)` (download_gtex.py lines 31-43): skip when the
destination exists, else retrieve the URL content and persist it under
exactly `fname`. -/
def fetch (net : String → ByteContent) (fs : FileSystem)
    (fname url : String) : FetchOut :=
  if fsExists fs fname then
    { fs := fs, transferred := false, skipped := true, dest := fname }
  else
    { fs := (fname, net url) :: fs, transferred := true, skipped := false,
      dest := fname }

/-- The `FILES` table of download_gtex.py lines 17-28:
tag, local filename, URL. -/
def FILES : List (String × String × String) :=
  [("gct", "GTEx_gene_reads.gct.gz",
    "https://storage.googleapis.com/gtex_analysis_v8/rna_seq_data/GTEx_Analysis_2017-06-05_v8_RNASeQCv1.1.9_gene_reads.gct.gz"),
   ("samp", "GTEx_sample_attrs.txt",
    "https://storage.googleapis.com/gtex_analysis_v8/annotations/GTEx_Analysis_v8_Annotations_SampleAttributesDS.txt")]

/-- The `__main__` loop of download_gtex.py lines 46-48: fetch every
entry of `FILES` in order. -/
def runDownloader (net : String → ByteContent) (fs : FileSystem) : FileSystem :=
  FILES.foldl (fun acc f => (fetch net acc f.2.1 f.2.2).fs) fs

/-- The basename of `gct_path` that etl_gtex.py line 21 opens. -/
def gct_path_name : String :=
  "GTEx_Analysis_2017-06-05_v8_RNASeQCv1.1.9_gene_reads.gct.gz"

/-- The basename of `meta_path` that etl_gtex.py line 22 opens. -/
def meta_path_name : String :=
  "GTEx_Analysis_v8_Annotations_SampleAttributesDS.txt"

/-! ## C1: pipeline linkage between Fetcher and Transformer -/

/-- C1 fails on the code: the Fetcher persists
`GTEx_gene_reads.gct.gz` and `GTEx_sample_attrs.txt`, while the
Transformer opens `GTEx_Analysis_2017-06-05_v8_RNASeQCv1.1.9_gene_reads.gct.gz`
and `GTEx_Analysis_v8_Annotations_SampleAttributesDS.txt`; after a clean
Fetcher run on an empty directory, neither file the Transformer opens
exists. -/
theorem c1_filename_mismatch :
    FILES.map (fun f => f.2.1) =
      ["GTEx_gene_reads.gct.gz", "GTEx_sample_attrs.txt"] ∧
    gct_path_name ∉ FILES.map (fun f => f.2.1) ∧
    meta_path_name ∉ FILES.map (fun f => f.2.1) ∧
    ∀ net : String → ByteContent,
      fsExists (runDownloader net []) gct_path_name = false ∧
      fsExists (runDownloader net []) meta_path_name = false := by
  refine ⟨by decide, by decide, by decide, fun net => ⟨?_, ?_⟩⟩ <;>
    simp [runDownloader, FILES, fetch, fsExists, List.lookup,
      gct_path_name, meta_path_name]

/-! ## C6: fetch idempotence -/

/-- C6: if the destination file already exists — whatever its contents,
including a truncated partial file — `fetch` performs no transfer,
leaves the filesystem (hence the file bytes) unchanged, reports a skip,
and returns the destination path; and a second invocation of `fetch`
right after a first one never transfers, so two invocations perform at
most one transfer. -/
theorem fetch_idempotent (net net2 : String → ByteContent)
    (fs fs2 : FileSystem) (fname url url2 : String)
    (h : fsExists fs fname = true) :
    fetch net fs fname url =
      { fs := fs, transferred := false, skipped := true, dest := fname } ∧
    (fetch net2 (fetch net fs2 fname url).fs fname url2).transferred = false := by
  constructor
  · rw [fetch, if_pos h]
  · by_cases h2 : fsExists fs2 fname = true
    · have hin : (fetch net fs2 fname url).fs = fs2 := by
        rw [fetch, if_pos h2]
      rw [fetch, hin, if_pos h2]
    · have hin : (fetch net fs2 fname url).fs = (fname, net url) :: fs2 := by
        rw [fetch, if_neg h2]
      have hex : fsExists ((fname, net url) :: fs2) fname = true := by
        simp [fsExists, List.lookup]
      rw [fetch, hin, if_pos hex]

/-- C6 witness: a filesystem already holding a one-byte (truncated) copy
of the GCT file. -/
theorem fetch_idempotent_witness :
    fsExists [("GTEx_gene_reads.gct.gz", [31])] "GTEx_gene_reads.gct.gz" = true ∧
    fetch (fun _ => [1, 2, 3]) [("GTEx_gene_reads.gct.gz", [31])]
        "GTEx_gene_reads.gct.gz" "https://example.org/a" =
      { fs := [("GTEx_gene_reads.gct.gz", [31])], transferred := false,
        skipped := true, dest := "GTEx_gene_reads.gct.gz" } ∧
    (fetch (fun _ => [4]) (fetch (fun _ => [1, 2, 3]) []
        "GTEx_gene_reads.gct.gz" "https://example.org/a").fs
      "GTEx_gene_reads.gct.gz" "https://example.org/a").transferred = false :=
  ⟨by decide,
   (fetch_idempotent (fun _ => [1, 2, 3]) (fun _ => [4])
      [("GTEx_gene_reads.gct.gz", [31])] [] "GTEx_gene_reads.gct.gz"
      "https://example.org/a" "https://example.org/a" (by decide)).1,
   (fetch_idempotent (fun _ => [1, 2, 3]) (fun _ => [4])
      [("GTEx_gene_reads.gct.gz", [31])] [] "GTEx_gene_reads.gct.gz"
      "https://example.org/a" "https://example.org/a" (by decide)).2⟩

/-! ## C5: content-based gzip detection in `smart_open` -/

/-- The gzip magic bytes `b"\x1f\x8b"` checked at etl_gtex.py line 32. -/
def gzipMagic : ByteContent := [31, 139]

/-- The kind of text handle `smart_open` returns: `gzip.open(path, "rt")`
or `open(path, "rt")`. -/
inductive HandleKind where
  | gzipText
  | plainText
deriving DecidableEq, Repr

/-- `smart_open(path)` (etl_gtex.py lines 25-34): read the first two
bytes of the file content; return a gzip-decoding text handle when they
are the magic bytes, a plain text handle otherwise.  The path argument
is taken but never inspected: the decision depends on content alone. -/
def smart_open (path : String) (content : ByteContent) : HandleKind :=
  if content.take 2 = gzipMagic then HandleKind.gzipText
  else HandleKind.plainText

/-- The text obtained by reading a file through the handle `smart_open`
returns.  The gzip codec itself is the external `gzip` library, so the
decompressor is a parameter; a plain handle yields the raw content. -/
def readText (gunzip : ByteContent → ByteContent) (path : String)
    (content : ByteContent) : ByteContent :=
  match smart_open path content with
  | HandleKind.gzipText => gunzip content
  | HandleKind.plainText => content

/-- C5: `smart_open` returns a gzip handle iff the first two bytes are
`0x1F 0x8B`, independent of the filename; consequently, for any gzip
codec (`gz` always emits the magic header, `gunzip` inverts `gz`) and
any plain text not starting with the magic bytes, reading the
compressed file yields the same text as reading the plain file — a
plain file named `.gz` and a gzip file without the suffix are both read
correctly. -/
theorem smart_open_spec (gz gunzip : ByteContent → ByteContent)
    (path1 path2 : String) (text : ByteContent)
    (hmagic : ∀ t : ByteContent, (gz t).take 2 = gzipMagic)
    (hround : ∀ t : ByteContent, gunzip (gz t) = t)
    (hplain : text.take 2 ≠ gzipMagic) :
    (∀ c : ByteContent,
      (smart_open path1 c = HandleKind.gzipText ↔ c.take 2 = gzipMagic)) ∧
    (∀ c : ByteContent, smart_open path1 c = smart_open path2 c) ∧
    smart_open path1 (gz text) = HandleKind.gzipText ∧
    smart_open path1 text = HandleKind.plainText ∧
    readText gunzip path1 (gz text) = text ∧
    readText gunzip path2 text = text := by
  have hiff : ∀ p : String, ∀ c : ByteContent,
      smart_open p c = HandleKind.gzipText ↔ c.take 2 = gzipMagic := by
    intro p c
    rw [smart_open]
    by_cases hc : c.take 2 = gzipMagic
    · simp [hc]
    · simp [hc]
  refine ⟨hiff path1, fun c => ?_, (hiff path1 _).mpr (hmagic text), ?_, ?_, ?_⟩
  · rw [smart_open, smart_open]
  · rw [smart_open, if_neg hplain]
  · rw [readText, smart_open, if_pos (hmagic text)]
    exact hround text
  · rw [readText, smart_open, if_neg hplain]

/-- C5 witness: a concrete two-byte text under a toy gzip codec that
prepends the magic header; the compressed bytes and the plain bytes read
back to the same text, and detection ignores the filename. -/
theorem smart_open_spec_witness :
    smart_open "plain_named.gz" [104, 105] = HandleKind.plainText ∧
    readText (fun b => b.drop 2) "gzip_without_suffix"
        ((fun t => 31 :: 139 :: t) [104, 105]) = [104, 105] ∧
    readText (fun b => b.drop 2) "plain_named.gz" [104, 105] = [104, 105] :=
  ⟨(smart_open_spec (fun t => 31 :: 139 :: t) (fun b => b.drop 2)
      "plain_named.gz" "plain_named.gz" [104, 105] (fun t => rfl)
      (fun t => rfl) (by decide)).2.2.2.1,
   (smart_open_spec (fun t => 31 :: 139 :: t) (fun b => b.drop 2)
      "gzip_without_suffix" "x" [104, 105] (fun t => rfl)
      (fun t => rfl) (by decide)).2.2.2.2.1,
   (smart_open_spec (fun t => 31 :: 139 :: t) (fun b => b.drop 2)
      "x" "plain_named.gz" [104, 105] (fun t => rfl)
      (fun t => rfl) (by decide)).2.2.2.2.2⟩

end BioRag
